import Mathlib

/-!
Shallow embedding of the goWs package (conn.go, const.go): a websocket
long-connection actor with an inbound queue, an outbound queue, a one-shot
close channel guarded by a mutex, heartbeat bookkeeping, and a dispatch
layer that routes messages through a caller-supplied Collection.

Go channels and goroutines are modelled by explicit state passing:
the two bounded channels become lists with a capacity, the closed close
channel becomes a Boolean, and a Go select whose branches are both ready
takes an explicit scheduler choice bit.  Calls that would block forever
in Go return none.  Side effects on the transport and on the Collection
are recorded in an explicit effect trace.  Time is measured in seconds
as a natural number, matching the second-granularity heartbeat interval.
-/

namespace GoWs

/-- Go error values: the two package errors from const.go plus opaque
errors produced by collaborators (collection, transport, upgrade). -/
inductive GoError where
  | errWsConnClose
  | errIdEmpty
  | other (tag : String)
deriving DecidableEq, Repr

/-- const.go: ErrWsConnClose = errors.New("websocket connection closed"). -/
def ErrWsConnClose : GoError := .errWsConnClose

/-- const.go: ErrIdEmpty = errors.New("id is null"). -/
def ErrIdEmpty : GoError := .errIdEmpty

/-- conn.go: type ToType string. -/
abbrev ToType := String

/-- const.go: ToAll = "All". -/
def ToAll : ToType := "All"

/-- const.go: ToGroup = "Group". -/
def ToGroup : ToType := "Group"

/-- const.go: ToConn = "Conn". -/
def ToConn : ToType := "Conn"

/-- conn.go: MsgTo, the routing target of a message. -/
structure MsgTo where
  ToType : ToType
  To : String
deriving DecidableEq, Repr

/-- conn.go: WsMessage.  Data is the opaque payload byte sequence. -/
structure WsMessage where
  To : MsgTo
  MessageType : Nat
  Data : List Nat
deriving DecidableEq, Repr

/-- RFC 6455 section 11.8 message type tags (gorilla websocket constants). -/
def websocketTextMessage : Nat := 1

/-- RFC 6455 binary message tag. -/
def websocketBinaryMessage : Nat := 2

/-- RFC 6455 close message tag. -/
def websocketCloseMessage : Nat := 8

/-- RFC 6455 ping message tag. -/
def websocketPingMessage : Nat := 9

/-- RFC 6455 pong message tag. -/
def websocketPongMessage : Nat := 10

/-- A peer connection as seen through the Collection: its underlying
websocket handle, reduced to the outcome its WriteMessage produces for
a given frame. -/
structure PeerConn where
  hid : String
  writeResult : Nat → List Nat → Option GoError

/-- conn.go: the Collection interface, as a bundle of response functions.
Get mirrors the Go pair return (conn, err): both components can
independently be present or absent. -/
structure Collection where
  set : String → Option GoError
  get : String → Option PeerConn × Option GoError
  getGroup : String → List PeerConn × Option GoError
  getAll : List PeerConn × Option GoError
  del : String → Option GoError

/-- conn.go: the HeartBeater interface.  GetHeartbeatTime is in seconds. -/
structure HeartBeater where
  isPingMsg : List Nat → Bool
  getPongMsg : List Nat
  getHeartbeatTime : Nat

/-- conn.go: the mutable state of a WsConnection.  closeChanClosed is
whether close(closeChan) has happened; isClosed is the guarded flag. -/
structure WsConnection where
  id : String
  inChan : List WsMessage
  inCap : Nat
  outChan : List WsMessage
  outCap : Nat
  closeChanClosed : Bool
  lastHeartbeatTime : Nat
  isClosed : Bool
deriving DecidableEq, Repr

/-- conn.go:69 NewWsConnection: fresh state, channels of capacity 1024,
lastHeartbeatTime set to the current time, not closed. -/
def NewWsConnection (id : String) (now : Nat) : WsConnection :=
  { id := id
    inChan := []
    inCap := 1024
    outChan := []
    outCap := 1024
    closeChanClosed := false
    lastHeartbeatTime := now
    isClosed := false }

/-- Observable side effects on the transport and the Collection. -/
inductive Effect where
  | transportClose
  | closeSignalFire
  | collDel (id : String)
  | collSet (id : String)
  | collGet (id : String)
  | collGetGroup (g : String)
  | collGetAll
  | transportWrite (target : String) (messageType : Nat) (data : List Nat)
deriving DecidableEq, Repr

/-- Number of occurrences of one effect in a trace. -/
def countEffect (effs : List Effect) (e : Effect) : Nat :=
  (effs.filter (fun x => x = e)).length

/-- conn.go:92 removeAndClose: unconditionally close the websocket, then
under the mutex close the close channel if not already closed, then
call Collection.Del and return its error.  The mutex serialises the
guarded section, so any interleaving of calls reduces to this
sequential semantics. -/
def removeAndClose (coll : Collection) (wc : WsConnection) :
    WsConnection × List Effect × Option GoError :=
  let effTransport := [Effect.transportClose]
  let p :=
    if !wc.isClosed then
      ({ wc with closeChanClosed := true, isClosed := true }, [Effect.closeSignalFire])
    else (wc, ([] : List Effect))
  (p.1, effTransport ++ p.2 ++ [Effect.collDel p.1.id], coll.del p.1.id)

/-- conn.go:87 Close: delegates to removeAndClose. -/
def Close (coll : Collection) (wc : WsConnection) :
    WsConnection × List Effect × Option GoError :=
  removeAndClose coll wc

/-- n sequential Close calls, with the concatenated effect trace. -/
def closeCalls (coll : Collection) (wc : WsConnection) : Nat → WsConnection × List Effect
  | 0 => (wc, [])
  | n + 1 =>
    let r := Close coll wc
    let rest := closeCalls coll r.1 n
    (rest.1, r.2.1 ++ rest.2)

/-- conn.go:124 Receive: select over the inbound channel and the close
channel.  none means the call blocks (both branches unready).  When both
branches are ready the Go runtime picks one at random; pickClose is that
choice. -/
def Receive (wc : WsConnection) (pickClose : Bool) :
    Option (WsConnection × Option WsMessage × Option GoError) :=
  match wc.inChan, wc.closeChanClosed with
  | [], false => none
  | [], true => some (wc, none, some ErrWsConnClose)
  | m :: rest, false => some ({ wc with inChan := rest }, some m, none)
  | m :: rest, true =>
    if pickClose then some (wc, none, some ErrWsConnClose)
    else some ({ wc with inChan := rest }, some m, none)

/-- conn.go:133 Write: select over sending on the outbound channel and
the close channel, with the same blocking and random-choice conventions
as Receive. -/
def Write (wc : WsConnection) (msg : WsMessage) (pickClose : Bool) :
    Option (WsConnection × Option GoError) :=
  if wc.outChan.length < wc.outCap then
    if wc.closeChanClosed then
      if pickClose then some (wc, some ErrWsConnClose)
      else some ({ wc with outChan := wc.outChan ++ [msg] }, none)
    else some ({ wc with outChan := wc.outChan ++ [msg] }, none)
  else
    if wc.closeChanClosed then some (wc, some ErrWsConnClose)
    else none

/-- conn.go:103 Open: after a successful upgrade, register with the
Collection; on a registration error run removeAndClose (its Del error is
discarded) and return the registration error; otherwise start the two
loops and return nil.  upgradeErr is the outcome of the upgrade step. -/
def Open (coll : Collection) (wc : WsConnection) (upgradeErr : Option GoError) :
    WsConnection × List Effect × Option GoError :=
  match upgradeErr with
  | some e => (wc, [], some e)
  | none =>
    match coll.set wc.id with
    | some e =>
      let r := removeAndClose coll wc
      (r.1, Effect.collSet wc.id :: r.2.1, some e)
    | none => (wc, [Effect.collSet wc.id], none)

/-- conn.go:173 the pong reply message built inside isPing: routed
ToConn to the own connection id, with websocket.TextMessage type and the
HeartBeater pong payload. -/
def pongReply (hb : HeartBeater) (id : String) : WsMessage :=
  { To := { ToType := ToConn, To := id }
    MessageType := websocketTextMessage
    Data := hb.getPongMsg }

/-- conn.go:168 isPing: if the payload is not a ping, report false;
otherwise update the heartbeat timestamp (keepAlive, conn.go:269), issue
Write with the pong reply (the Write error is discarded), and report
true.  none means the inner Write blocks. -/
def isPing (hb : HeartBeater) (wc : WsConnection) (now : Nat) (data : List Nat)
    (pickClose : Bool) : Option (WsConnection × Bool) :=
  if !(hb.isPingMsg data) then some (wc, false)
  else
    let wc1 := { wc with lastHeartbeatTime := now }
    match Write wc1 (pongReply hb wc1.id) pickClose with
    | some r => some (r.1, true)
    | none => none

/-- Whether one iteration of the read loop leaves the loop running. -/
inductive ReadStepOutcome where
  | exited
  | continued
deriving DecidableEq, Repr

/-- conn.go:143 one iteration of readLoop.  frame is the ReadMessage
outcome (none = transport error).  On error the loop runs removeAndClose
and exits.  A ping frame is consumed by isPing and the loop continues
without touching the inbound queue.  A non-ping frame is sent to the
inbound channel in a select against the close channel; the enqueued
WsMessage has a zero-value To field.  none means the iteration blocks. -/
def readLoopStep (hb : HeartBeater) (coll : Collection) (wc : WsConnection)
    (frame : Option (Nat × List Nat)) (now : Nat) (pickClose : Bool) :
    Option (WsConnection × List Effect × ReadStepOutcome) :=
  match frame with
  | none =>
    let r := removeAndClose coll wc
    some (r.1, r.2.1, .exited)
  | some (msgType, data) =>
    match isPing hb wc now data pickClose with
    | none => none
    | some (wc1, true) => some (wc1, [], .continued)
    | some (wc1, false) =>
      let msg : WsMessage := { To := { ToType := "", To := "" }, MessageType := msgType, Data := data }
      if wc1.inChan.length < wc1.inCap then
        if wc1.closeChanClosed then
          if pickClose then some (wc1, [], .exited)
          else some ({ wc1 with inChan := wc1.inChan ++ [msg] }, [], .continued)
        else some ({ wc1 with inChan := wc1.inChan ++ [msg] }, [], .continued)
      else
        if wc1.closeChanClosed then some (wc1, [], .exited)
        else none

/-- conn.go:274 isAlive: false when now minus the last heartbeat time
exceeds the heartbeat interval (seconds, natural subtraction for the
monotone clock). -/
def isAlive (wc : WsConnection) (hb : HeartBeater) (now : Nat) : Bool :=
  !(now - wc.lastHeartbeatTime > hb.getHeartbeatTime)

/-- conn.go:185 the heartbeat timer branch of writeLoop, iterated: the
timer set at loop start fires every GetHeartbeatTime seconds and is
rearmed after each firing that finds the connection alive; with no ping
arriving, the timestamp stays at wc.lastHeartbeatTime.  The value is
whether the loop is still running after the first k timer firings
(tick j fires at time start + j * GetHeartbeatTime). -/
def writeLoopAliveAfter (hb : HeartBeater) (wc : WsConnection) (start : Nat) : Nat → Bool
  | 0 => true
  | k + 1 =>
    writeLoopAliveAfter hb wc start k &&
      isAlive wc hb (start + (k + 1) * hb.getHeartbeatTime)

/-- The timer firing index at which the heartbeat check first fails when
no ping ever arrives: the spec bound places it at most one interval
after the timeout expires. -/
def firstDeadTick (hb : HeartBeater) (wc : WsConnection) (start : Nat) : Nat :=
  (wc.lastHeartbeatTime - start) / hb.getHeartbeatTime + 2

/-- conn.go:253 pushConn: empty target id fails with ErrIdEmpty before
any Collection access; a lookup that reports an error, or reports no
connection, returns the lookup error unchanged and performs no write;
otherwise one WriteMessage to the target, whose outcome is returned. -/
def pushConn (coll : Collection) (msg : WsMessage) : List Effect × Option GoError :=
  if msg.To.To = "" then ([], some ErrIdEmpty)
  else
    let r := coll.get msg.To.To
    match r.2, r.1 with
    | some e, _ => ([Effect.collGet msg.To.To], some e)
    | none, none => ([Effect.collGet msg.To.To], none)
    | none, some c =>
      ([Effect.collGet msg.To.To, Effect.transportWrite c.hid msg.MessageType msg.Data],
        c.writeResult msg.MessageType msg.Data)

/-- conn.go:228 the fan-out loop shared by pushAll and pushGroup: write
to every connection in order; a per-connection write error only hits a
continue statement, so both outcomes proceed identically. -/
def pushLoop (conns : List PeerConn) (msg : WsMessage) : List Effect :=
  match conns with
  | [] => []
  | c :: rest =>
    match c.writeResult msg.MessageType msg.Data with
    | some _ => Effect.transportWrite c.hid msg.MessageType msg.Data :: pushLoop rest msg
    | none => Effect.transportWrite c.hid msg.MessageType msg.Data :: pushLoop rest msg

/-- conn.go:223 pushAll: resolve GetAll; on a resolution error return it,
otherwise fan out and return nil. -/
def pushAll (coll : Collection) (msg : WsMessage) : List Effect × Option GoError :=
  match coll.getAll with
  | (_, some e) => ([Effect.collGetAll], some e)
  | (conns, none) => (Effect.collGetAll :: pushLoop conns msg, none)

/-- conn.go:238 pushGroup: resolve GetGroup(msg.To.To); on a resolution
error return it, otherwise fan out and return nil. -/
def pushGroup (coll : Collection) (msg : WsMessage) : List Effect × Option GoError :=
  match coll.getGroup msg.To.To with
  | (_, some e) => ([Effect.collGetGroup msg.To.To], some e)
  | (conns, none) => (Effect.collGetGroup msg.To.To :: pushLoop conns msg, none)

/-- conn.go:209 msgDispatch: switch on the ToType string; each push
result is discarded with a blank assignment and the function returns
nil; an unknown ToType falls to the empty default case. -/
def msgDispatch (coll : Collection) (msg : WsMessage) : List Effect × Option GoError :=
  if msg.To.ToType = ToAll then ((pushAll coll msg).1, none)
  else if msg.To.ToType = ToGroup then ((pushGroup coll msg).1, none)
  else if msg.To.ToType = ToConn then ((pushConn coll msg).1, none)
  else ([], none)

/-- A benign Collection: registration succeeds, lookups find nothing,
deletion succeeds. -/
def collOk : Collection :=
  { set := fun _ => none
    get := fun _ => (none, none)
    getGroup := fun _ => ([], none)
    getAll := ([], none)
    del := fun _ => none }

/-- A fresh connection fixture. -/
def wc0 : WsConnection := NewWsConnection "a" 0

/-- A concrete text message fixture. -/
def msgA : WsMessage :=
  { To := { ToType := ToConn, To := "a" }, MessageType := 1, Data := [104, 105] }

/-- A connection whose close signal has fired while one inbound message
is still buffered. -/
def wcClosedBuf : WsConnection :=
  { id := "a"
    inChan := [msgA]
    inCap := 1024
    outChan := []
    outCap := 1024
    closeChanClosed := true
    lastHeartbeatTime := 0
    isClosed := true }

/-- Counting an effect distributes over trace concatenation. -/
theorem countEffect_append (a b : List Effect) (e : Effect) :
    countEffect (a ++ b) e = countEffect a e + countEffect b e := by
  simp [countEffect, List.filter_append]

/-- After any Close call the guarded flag is set and the id is kept. -/
theorem close_state_closed (coll : Collection) (wc : WsConnection) :
    (Close coll wc).1.isClosed = true ∧ (Close coll wc).1.id = wc.id := by
  simp only [Close, removeAndClose]
  cases h : wc.isClosed <;> simp [h]

/-- Close calls from an already-closed state fire no close signal but
still perform one transport close and one Collection.Del per call. -/
theorem closeCalls_closed_counts (coll : Collection) (wc : WsConnection) (n : Nat)
    (h : wc.isClosed = true) :
    countEffect (closeCalls coll wc n).2 Effect.closeSignalFire = 0 ∧
    countEffect (closeCalls coll wc n).2 Effect.transportClose = n ∧
    countEffect (closeCalls coll wc n).2 (Effect.collDel wc.id) = n := by
  induction n generalizing wc with
  | zero => simp [closeCalls, countEffect]
  | succ m ih =>
    have hc : Close coll wc =
        (wc, [Effect.transportClose, Effect.collDel wc.id], coll.del wc.id) := by
      simp [Close, removeAndClose, h]
    obtain ⟨i1, i2, i3⟩ := ih wc h
    simp only [closeCalls, hc, countEffect_append]
    have p1 : countEffect [Effect.transportClose, Effect.collDel wc.id]
        Effect.closeSignalFire = 0 := by simp [countEffect]
    have p2 : countEffect [Effect.transportClose, Effect.collDel wc.id]
        Effect.transportClose = 1 := by simp [countEffect]
    have p3 : countEffect [Effect.transportClose, Effect.collDel wc.id]
        (Effect.collDel wc.id) = 1 := by simp [countEffect]
    refine ⟨?_, ?_, ?_⟩
    · rw [p1, i1]
    · rw [p2, i2]; omega
    · rw [p3, i3]; omega

/-- Claim C1, counterexample: two sequential Close calls on a freshly
opened connection perform two transport closes and two Collection.Del
calls — not exactly one of each as the claim states — while the close
signal fires once. -/
theorem close_effects_not_once_counterexample :
    countEffect (closeCalls collOk wc0 2).2 Effect.transportClose = 2 ∧
    countEffect (closeCalls collOk wc0 2).2 (Effect.collDel "a") = 2 ∧
    countEffect (closeCalls collOk wc0 2).2 Effect.closeSignalFire = 1 := by
  decide

/-- Claim C1 (amended): across any positive number of sequential Close
calls on an open connection the close signal fires exactly once —
later calls are no-ops for the signal — but the transport close and the
Collection.Del deregistration are performed once per call, n times in
total. -/
theorem close_signal_fires_once (coll : Collection) (wc : WsConnection) (n : Nat)
    (hopen : wc.isClosed = false) (hn : 1 ≤ n) :
    countEffect (closeCalls coll wc n).2 Effect.closeSignalFire = 1 ∧
    countEffect (closeCalls coll wc n).2 Effect.transportClose = n ∧
    countEffect (closeCalls coll wc n).2 (Effect.collDel wc.id) = n := by
  obtain ⟨m, rfl⟩ : ∃ m, n = m + 1 := ⟨n - 1, by omega⟩
  have hc : Close coll wc =
      ({ wc with closeChanClosed := true, isClosed := true },
        [Effect.transportClose, Effect.closeSignalFire, Effect.collDel wc.id],
        coll.del wc.id) := by
    simp [Close, removeAndClose, hopen]
  obtain ⟨i1, i2, i3⟩ :=
    closeCalls_closed_counts coll { wc with closeChanClosed := true, isClosed := true } m rfl
  have i3' : countEffect
      (closeCalls coll { wc with closeChanClosed := true, isClosed := true } m).2
      (Effect.collDel wc.id) = m := i3
  simp only [closeCalls, hc, countEffect_append]
  have q1 : countEffect
      [Effect.transportClose, Effect.closeSignalFire, Effect.collDel wc.id]
      Effect.closeSignalFire = 1 := by simp [countEffect]
  have q2 : countEffect
      [Effect.transportClose, Effect.closeSignalFire, Effect.collDel wc.id]
      Effect.transportClose = 1 := by simp [countEffect]
  have q3 : countEffect
      [Effect.transportClose, Effect.closeSignalFire, Effect.collDel wc.id]
      (Effect.collDel wc.id) = 1 := by simp [countEffect]
  refine ⟨?_, ?_, ?_⟩
  · rw [q1, i1]
  · rw [q2, i2]; omega
  · rw [q3, i3']; omega

/-- Claim C1 witness: the amended statement evaluated at two Close calls
on the concrete fixture. -/
theorem close_signal_fires_once_witness :
    countEffect (closeCalls collOk wc0 2).2 Effect.closeSignalFire = 1 ∧
    countEffect (closeCalls collOk wc0 2).2 Effect.transportClose = 2 ∧
    countEffect (closeCalls collOk wc0 2).2 (Effect.collDel wc0.id) = 2 :=
  close_signal_fires_once collOk wc0 2 rfl (by decide)

/-- Claim C2, counterexample: with the close signal fired and one message
still buffered, the select in Receive may pick the inbound branch and
return the buffered message with no error, and the select in Write may
pick the send branch, enqueue the message and return no error. -/
theorem receive_write_after_close_counterexample :
    Receive wcClosedBuf false = some ({ wcClosedBuf with inChan := [] }, some msgA, none) ∧
    Write wcClosedBuf msgA false = some ({ wcClosedBuf with outChan := [msgA] }, none) := by
  constructor <;> rfl

/-- Claim C2 (amended): after the close signal has fired, Receive and
Write never block; Receive returns either the closed error or a message
still buffered in the inbound queue (scheduler choice), and with an
empty inbound queue always the closed error; Write returns either the
closed error without enqueuing or enqueues the message when the
outbound queue has room (scheduler choice), and with a full outbound
queue always the closed error. -/
theorem receive_write_after_close (wc : WsConnection) (msg : WsMessage) (pc : Bool)
    (h : wc.closeChanClosed = true) :
    (Receive wc pc).isSome ∧
    (Write wc msg pc).isSome ∧
    (wc.inChan = [] → Receive wc pc = some (wc, none, some ErrWsConnClose)) ∧
    (Receive wc pc = some (wc, none, some ErrWsConnClose) ∨
      ∃ m rest, wc.inChan = m :: rest ∧
        Receive wc pc = some ({ wc with inChan := rest }, some m, none)) ∧
    (¬ wc.outChan.length < wc.outCap → Write wc msg pc = some (wc, some ErrWsConnClose)) ∧
    (Write wc msg pc = some (wc, some ErrWsConnClose) ∨
      (wc.outChan.length < wc.outCap ∧
        Write wc msg pc = some ({ wc with outChan := wc.outChan ++ [msg] }, none))) := by
  refine ⟨?_, ?_, ?_, ?_, ?_, ?_⟩
  · cases hin : wc.inChan <;> cases pc <;> simp [Receive, h, hin]
  · by_cases hlen : wc.outChan.length < wc.outCap <;> cases pc <;>
      simp [Write, h, hlen]
  · intro hin; cases pc <;> simp [Receive, h, hin]
  · cases hin : wc.inChan with
    | nil => cases pc <;> simp [Receive, h, hin]
    | cons m rest =>
      cases pc
      · exact Or.inr ⟨m, rest, rfl, by simp [Receive, h, hin]⟩
      · exact Or.inl (by simp [Receive, h, hin])
  · intro hlen; cases pc <;> simp [Write, h, hlen]
  · by_cases hlen : wc.outChan.length < wc.outCap
    · cases pc
      · exact Or.inr ⟨hlen, by simp [Write, h, hlen]⟩
      · exact Or.inl (by simp [Write, h, hlen])
    · cases pc <;> exact Or.inl (by simp [Write, h, hlen])

/-- Claim C2 witness: the amended statement applied to the closed
fixture with a buffered message. -/
theorem receive_write_after_close_witness :
    (Receive wcClosedBuf true).isSome ∧ (Write wcClosedBuf msgA true).isSome :=
  ⟨(receive_write_after_close wcClosedBuf msgA true rfl).1,
    (receive_write_after_close wcClosedBuf msgA true rfl).2.1⟩

/-- A registered peer whose transport write always fails. -/
def peerB : PeerConn :=
  { hid := "b", writeResult := fun _ _ => some (GoError.other "netdown") }

/-- A Collection with the single registered peer "b". -/
def collB : Collection :=
  { set := fun _ => none
    get := fun i => if i = "b" then (some peerB, none) else (none, none)
    getGroup := fun _ => ([], none)
    getAll := ([peerB], none)
    del := fun _ => none }

/-- A message routed directly to peer "b". -/
def msgToB : WsMessage :=
  { To := { ToType := ToConn, To := "b" }, MessageType := 1, Data := [120] }

/-- Claim C3, counterexample: for a Direct message to the registered peer
"b" whose transport write fails, pushConn returns the write error, but
msgDispatch — the dispatch context that the write loop of the issuing
actor invokes — discards it and returns nil, so the outcome never
reaches the issuing actor. -/
theorem direct_outcome_discarded_counterexample :
    (pushConn collB msgToB).2 = some (GoError.other "netdown") ∧
    (msgDispatch collB msgToB).2 = none ∧
    countEffect (msgDispatch collB msgToB).1 (Effect.transportWrite "b" 1 [120]) = 1 := by
  refine ⟨rfl, rfl, rfl⟩

/-- Claim C3 (amended): for every Direct message with a non-empty
registered id, dispatch performs exactly one frame write to that
recipient and pushConn returns the outcome of that write; msgDispatch,
however, discards that outcome and returns nil, so the outcome is not
surfaced to the issuing actor. -/
theorem direct_dispatch_one_write (coll : Collection) (msg : WsMessage) (c : PeerConn)
    (hty : msg.To.ToType = ToConn) (hne : msg.To.To ≠ "")
    (hget : coll.get msg.To.To = (some c, none)) :
    pushConn coll msg =
      ([Effect.collGet msg.To.To, Effect.transportWrite c.hid msg.MessageType msg.Data],
        c.writeResult msg.MessageType msg.Data) ∧
    msgDispatch coll msg =
      ([Effect.collGet msg.To.To, Effect.transportWrite c.hid msg.MessageType msg.Data],
        none) := by
  have hp : pushConn coll msg =
      ([Effect.collGet msg.To.To, Effect.transportWrite c.hid msg.MessageType msg.Data],
        c.writeResult msg.MessageType msg.Data) := by
    simp [pushConn, hne, hget]
  refine ⟨hp, ?_⟩
  simp [msgDispatch, hty, ToAll, ToGroup, ToConn, hp]

/-- Claim C3 witness: the amended statement at the concrete failing
peer. -/
theorem direct_dispatch_one_write_witness :
    pushConn collB msgToB =
      ([Effect.collGet "b", Effect.transportWrite "b" 1 [120]],
        some (GoError.other "netdown")) ∧
    msgDispatch collB msgToB =
      ([Effect.collGet "b", Effect.transportWrite "b" 1 [120]], none) :=
  direct_dispatch_one_write collB msgToB peerB rfl (by decide) rfl

/-- Claim C7: a Direct message with an empty target id fails with
ErrIdEmpty, with an empty effect trace: no Collection lookup and no
transport write happen. -/
theorem direct_empty_id (coll : Collection) (msg : WsMessage) (h : msg.To.To = "") :
    pushConn coll msg = ([], some ErrIdEmpty) := by
  simp [pushConn, h]

/-- A Direct message with an empty target id. -/
def msgEmptyTo : WsMessage :=
  { To := { ToType := ToConn, To := "" }, MessageType := 1, Data := [] }

/-- Claim C7 witness: the empty-target rejection on a concrete message. -/
theorem direct_empty_id_witness :
    pushConn collOk msgEmptyTo = ([], some ErrIdEmpty) :=
  direct_empty_id collOk msgEmptyTo rfl

/-- A Direct message to an id no Collection entry matches. -/
def msgToGhost : WsMessage :=
  { To := { ToType := ToConn, To := "ghost" }, MessageType := 1, Data := [] }

/-- Claim C8, counterexample: when the Collection reports absence as a
nil connection with a nil error — the lookup contract of the spec
Directory — pushConn on the unregistered id "ghost" returns nil rather
than failing with any not-found error (the core defines no such error
value), performing only the lookup and no transport write. -/
theorem direct_unregistered_counterexample :
    pushConn collOk msgToGhost = ([Effect.collGet "ghost"], none) := by
  rfl

/-- Claim C8 (amended): for a Direct message whose non-empty target id
the Collection does not resolve to a connection, dispatch performs no
transport write and returns exactly the error the Collection lookup
reported — which is nil when the Collection signals absence as a nil
connection with nil error; the core never substitutes a not-found error
of its own. -/
theorem direct_unregistered_no_write (coll : Collection) (msg : WsMessage)
    (hne : msg.To.To ≠ "") (habs : (coll.get msg.To.To).1 = none) :
    pushConn coll msg = ([Effect.collGet msg.To.To], (coll.get msg.To.To).2) := by
  rcases hg : coll.get msg.To.To with ⟨c, e⟩
  rw [hg] at habs
  simp only at habs
  subst habs
  cases e <;> simp [pushConn, hne, hg]

/-- Claim C8 witness: the amended statement on the concrete absent id. -/
theorem direct_unregistered_no_write_witness :
    pushConn collOk msgToGhost = ([Effect.collGet "ghost"], (collOk.get "ghost").2) :=
  direct_unregistered_no_write collOk msgToGhost (by decide) rfl

/-- The fan-out loop writes one frame per resolved connection, in
order, whatever each write outcome is. -/
theorem pushLoop_eq_map (conns : List PeerConn) (msg : WsMessage) :
    pushLoop conns msg =
      conns.map (fun c => Effect.transportWrite c.hid msg.MessageType msg.Data) := by
  induction conns with
  | nil => rfl
  | cons c rest ih =>
    cases hw : c.writeResult msg.MessageType msg.Data <;> simp [pushLoop, hw, ih]

/-- Claim C9: for Broadcast and Group messages, every connection the
Collection resolves receives exactly one write attempt, in order,
regardless of the failure of any individual write (the write outcomes
do not influence the trace), and the aggregate result is nil — no
error is raised for failed recipients. -/
theorem fanout_best_effort (coll : Collection) (msg : WsMessage)
    (conns gconns : List PeerConn)
    (hall : coll.getAll = (conns, none))
    (hgrp : coll.getGroup msg.To.To = (gconns, none)) :
    pushAll coll msg = (Effect.collGetAll ::
      conns.map (fun c => Effect.transportWrite c.hid msg.MessageType msg.Data), none) ∧
    pushGroup coll msg = (Effect.collGetGroup msg.To.To ::
      gconns.map (fun c => Effect.transportWrite c.hid msg.MessageType msg.Data), none) := by
  constructor
  · simp [pushAll, hall, pushLoop_eq_map]
  · simp [pushGroup, hgrp, pushLoop_eq_map]

/-- A peer whose every write fails. -/
def peerFail : PeerConn :=
  { hid := "f", writeResult := fun _ _ => some (GoError.other "boom") }

/-- A peer whose every write succeeds. -/
def peerOkC : PeerConn := { hid := "c", writeResult := fun _ _ => none }

/-- A Collection resolving groups and broadcast to a failing peer
followed by a healthy one. -/
def collFan : Collection :=
  { set := fun _ => none
    get := fun _ => (none, none)
    getGroup := fun _ => ([peerFail, peerOkC], none)
    getAll := ([peerFail, peerOkC], none)
    del := fun _ => none }

/-- A group message fixture. -/
def msgGroupG : WsMessage :=
  { To := { ToType := ToGroup, To := "g" }, MessageType := 2, Data := [7] }

/-- Claim C9 witness: with the first resolved write failing, the second
peer is still written and no error is returned. -/
theorem fanout_best_effort_witness :
    pushAll collFan msgGroupG = ([Effect.collGetAll,
      Effect.transportWrite "f" 2 [7], Effect.transportWrite "c" 2 [7]], none) ∧
    pushGroup collFan msgGroupG = ([Effect.collGetGroup "g",
      Effect.transportWrite "f" 2 [7], Effect.transportWrite "c" 2 [7]], none) :=
  fanout_best_effort collFan msgGroupG [peerFail, peerOkC] [peerFail, peerOkC] rfl rfl

/-- Claim C10: a message whose ToType is none of All, Group, Conn falls
to the empty default case of msgDispatch: no Collection access, no
transport write, nil returned, the message silently dropped. -/
theorem dispatch_unknown_totype (coll : Collection) (msg : WsMessage)
    (h1 : msg.To.ToType ≠ ToAll) (h2 : msg.To.ToType ≠ ToGroup)
    (h3 : msg.To.ToType ≠ ToConn) :
    msgDispatch coll msg = ([], none) := by
  simp [msgDispatch, h1, h2, h3]

/-- A message with an unknown routing type. -/
def msgOdd : WsMessage :=
  { To := { ToType := "Nobody", To := "x" }, MessageType := 1, Data := [] }

/-- Claim C10 witness: the silent no-op on a concrete unknown ToType. -/
theorem dispatch_unknown_totype_witness :
    msgDispatch collOk msgOdd = ([], none) :=
  dispatch_unknown_totype collOk msgOdd (by decide) (by decide) (by decide)

/-- A HeartBeater recognising the ASCII payload "ping" and replying with
the ASCII payload "pong", with a one-second heartbeat interval. -/
def hbPing : HeartBeater :=
  { isPingMsg := fun d => d == [112, 105, 110, 103]
    getPongMsg := [112, 111, 110, 103]
    getHeartbeatTime := 1 }

/-- Claim C4, counterexample: a "ping" frame updates the heartbeat
timestamp and schedules exactly one reply into the outbound queue with
the pong payload, routed ToConn to the own id — but that reply carries
websocket.TextMessage (1), not the Pong message type (10) the claim
states. -/
theorem ping_reply_not_pong_counterexample :
    readLoopStep hbPing collOk wc0 (some (websocketTextMessage, [112, 105, 110, 103]))
        5 false =
      some ({ wc0 with lastHeartbeatTime := 5, outChan := [pongReply hbPing "a"] }, [],
        .continued) ∧
    (pongReply hbPing "a").MessageType = websocketTextMessage ∧
    (pongReply hbPing "a").MessageType ≠ websocketPongMessage := by
  refine ⟨by decide, rfl, by decide⟩

/-- Claim C4 (amended): a frame the HeartBeater classifies as a ping is
never enqueued to the inbound queue (so Receive never surfaces it), the
heartbeat timestamp is set to the current time, and exactly one reply
message with the GetPongMsg payload, routed ToConn to the own id and
carrying websocket.TextMessage — not the Pong type — is enqueued to the
outbound queue. -/
theorem ping_frame_handled (hb : HeartBeater) (coll : Collection) (wc : WsConnection)
    (msgType : Nat) (data : List Nat) (now : Nat) (pc : Bool)
    (hping : hb.isPingMsg data = true)
    (hopen : wc.closeChanClosed = false)
    (hroom : wc.outChan.length < wc.outCap) :
    readLoopStep hb coll wc (some (msgType, data)) now pc =
      some ({ wc with lastHeartbeatTime := now,
                      outChan := wc.outChan ++ [pongReply hb wc.id] }, [],
        .continued) ∧
    pongReply hb wc.id =
      { To := { ToType := ToConn, To := wc.id }
        MessageType := websocketTextMessage
        Data := hb.getPongMsg } ∧
    ({ wc with lastHeartbeatTime := now,
               outChan := wc.outChan ++ [pongReply hb wc.id] } : WsConnection).inChan
      = wc.inChan := by
  refine ⟨?_, rfl, rfl⟩
  simp [readLoopStep, isPing, Write, pongReply, hping, hopen, hroom]

/-- Claim C4 witness: the amended statement on the concrete ping frame. -/
theorem ping_frame_handled_witness :
    readLoopStep hbPing collOk wc0 (some (1, [112, 105, 110, 103])) 5 true =
      some ({ wc0 with lastHeartbeatTime := 5,
                       outChan := wc0.outChan ++ [pongReply hbPing wc0.id] }, [],
        .continued) ∧
    pongReply hbPing wc0.id =
      { To := { ToType := ToConn, To := wc0.id }
        MessageType := websocketTextMessage
        Data := hbPing.getPongMsg } ∧
    ({ wc0 with lastHeartbeatTime := 5,
                outChan := wc0.outChan ++ [pongReply hbPing wc0.id] } : WsConnection).inChan
      = wc0.inChan :=
  ping_frame_handled hbPing collOk wc0 1 [112, 105, 110, 103] 5 true rfl rfl (by decide)

/-- Once the heartbeat check fails at a timer firing, the write loop has
exited at that firing. -/
theorem writeLoopAliveAfter_succ_false (hb : HeartBeater) (wc : WsConnection)
    (start k : Nat)
    (h : isAlive wc hb (start + (k + 1) * hb.getHeartbeatTime) = false) :
    writeLoopAliveAfter hb wc start (k + 1) = false := by
  simp [writeLoopAliveAfter, h]

/-- Claim C5: the single missed-interval policy.  With no ping arriving
(the timestamp stays at wc.lastHeartbeatTime), the write loop is still
running after every timer firing that happens no later than one
interval past the timestamp, and the firing with index firstDeadTick
finds the connection dead and terminates the loop; that firing happens
no later than the timestamp plus two heartbeat intervals, i.e. within
one additional timer period after the timeout expires. -/
theorem heartbeat_single_missed_interval (hb : HeartBeater) (wc : WsConnection) (start : Nat)
    (hT : 1 ≤ hb.getHeartbeatTime) (hs : start ≤ wc.lastHeartbeatTime) :
    (∀ k, start + k * hb.getHeartbeatTime ≤
        wc.lastHeartbeatTime + hb.getHeartbeatTime →
      writeLoopAliveAfter hb wc start k = true) ∧
    writeLoopAliveAfter hb wc start (firstDeadTick hb wc start) = false ∧
    start + firstDeadTick hb wc start * hb.getHeartbeatTime ≤
      wc.lastHeartbeatTime + 2 * hb.getHeartbeatTime := by
  refine ⟨?_, ?_, ?_⟩
  · intro k
    induction k with
    | zero => intro _; rfl
    | succ j ih =>
      intro hk
      have hmono : j * hb.getHeartbeatTime ≤ (j + 1) * hb.getHeartbeatTime :=
        Nat.mul_le_mul_right _ (by omega)
      have hj : start + j * hb.getHeartbeatTime ≤
          wc.lastHeartbeatTime + hb.getHeartbeatTime := by omega
      have ha : isAlive wc hb (start + (j + 1) * hb.getHeartbeatTime) = true := by
        simp [isAlive]
        omega
      simp [writeLoopAliveAfter, ih hj, ha]
  · rw [show firstDeadTick hb wc start =
      ((wc.lastHeartbeatTime - start) / hb.getHeartbeatTime + 1) + 1 from rfl]
    apply writeLoopAliveAfter_succ_false
    have hdm := Nat.div_add_mod (wc.lastHeartbeatTime - start) hb.getHeartbeatTime
    rw [Nat.mul_comm] at hdm
    have hr : (wc.lastHeartbeatTime - start) % hb.getHeartbeatTime <
        hb.getHeartbeatTime :=
      Nat.mod_lt _ (show 0 < hb.getHeartbeatTime by omega)
    have hmul : ((wc.lastHeartbeatTime - start) / hb.getHeartbeatTime + 1 + 1) *
        hb.getHeartbeatTime =
        (wc.lastHeartbeatTime - start) / hb.getHeartbeatTime * hb.getHeartbeatTime +
          2 * hb.getHeartbeatTime := by ring
    have hgt : hb.getHeartbeatTime <
        start + ((wc.lastHeartbeatTime - start) / hb.getHeartbeatTime + 1 + 1) *
          hb.getHeartbeatTime - wc.lastHeartbeatTime := by
      rw [hmul]
      omega
    simp [isAlive, hgt]
  · have h1 : (wc.lastHeartbeatTime - start) / hb.getHeartbeatTime *
        hb.getHeartbeatTime ≤ wc.lastHeartbeatTime - start :=
      Nat.div_mul_le_self _ _
    have hmul : firstDeadTick hb wc start * hb.getHeartbeatTime =
        (wc.lastHeartbeatTime - start) / hb.getHeartbeatTime * hb.getHeartbeatTime +
          2 * hb.getHeartbeatTime := by
      simp only [firstDeadTick]
      ring
    rw [hmul]
    omega

/-- Claim C5 witness: with a one-second interval and the timestamp at
the loop start, the loop survives the first firing and is gone by the
firing at two seconds. -/
theorem heartbeat_single_missed_interval_witness :
    writeLoopAliveAfter hbPing wc0 0 1 = true ∧
    writeLoopAliveAfter hbPing wc0 0 (firstDeadTick hbPing wc0 0) = false ∧
    0 + firstDeadTick hbPing wc0 0 * hbPing.getHeartbeatTime ≤
      wc0.lastHeartbeatTime + 2 * hbPing.getHeartbeatTime :=
  ⟨(heartbeat_single_missed_interval hbPing wc0 0 (by decide) (by decide)).1 1 (by decide),
    (heartbeat_single_missed_interval hbPing wc0 0 (by decide) (by decide)).2.1,
    (heartbeat_single_missed_interval hbPing wc0 0 (by decide) (by decide)).2.2⟩

/-- Claim C6: if Collection registration fails during Open, Open returns
the registration error and the actor is first torn down: the transport
is closed, the close signal is fired, and the id is deregistered via
Collection.Del. -/
theorem open_registration_failure_tears_down (coll : Collection) (wc : WsConnection)
    (e : GoError) (hopen : wc.isClosed = false) (hset : coll.set wc.id = some e) :
    Open coll wc none =
      ({ wc with closeChanClosed := true, isClosed := true },
        [Effect.collSet wc.id, Effect.transportClose, Effect.closeSignalFire,
          Effect.collDel wc.id],
        some e) := by
  simp [Open, removeAndClose, hset, hopen]

/-- A Collection whose registration always fails. -/
def collSetFail : Collection :=
  { set := fun _ => some (GoError.other "setfail")
    get := fun _ => (none, none)
    getGroup := fun _ => ([], none)
    getAll := ([], none)
    del := fun _ => none }

/-- Claim C6 witness: the failed registration on the fresh fixture. -/
theorem open_registration_failure_witness :
    Open collSetFail wc0 none =
      ({ wc0 with closeChanClosed := true, isClosed := true },
        [Effect.collSet wc0.id, Effect.transportClose, Effect.closeSignalFire,
          Effect.collDel wc0.id],
        some (GoError.other "setfail")) :=
  open_registration_failure_tears_down collSetFail wc0 (GoError.other "setfail") rfl rfl

end GoWs
